import Mathlib

/-!
Verification of the Private-Pay confidential-DeFi programs: a shallow
embedding of the Arcis circuits (`encrypted-ixs/src/lib.rs`) and of the
three Anchor programs' settlement callbacks and liquidity instruction
(`programs/private_swap`, `programs/dark_pool`, `programs/private_pay`),
with theorems checking the specification's claims against them.

Machine integers are modelled as `Nat` with explicit reduction modulo
`2 ^ 64` wherever a `u64` operation can overflow; `checked_add` panics
are modelled as `Option.none`; the fallible signature verification of a
`SignedComputationOutputs` value is modelled as an `Except` field, since
the callback's behaviour depends only on the verification outcome.
-/

namespace PrivateDefi

/-- The modulus of `u64` arithmetic. -/
def U64 : Nat := 2 ^ 64

namespace Circuits

/-- Embedding of `execute_swap` from `encrypted-ixs/src/lib.rs`.
`fee = amount_in * fee_rate / 10000`; `amount_in_after_fee = amount_in - fee`
(wrapping `u64` subtraction); direction selects `(reserve_in, reserve_out)`;
`amount_out = amount_in_after_fee * reserve_out / (reserve_in + amount_in_after_fee)`;
`success = amount_out >= min_output`.  Products and sums are reduced mod
`2 ^ 64` as `u64` arithmetic wraps; `Nat` division by zero yields `0` where
the Rust division would trap, a case excluded by every claim's hypotheses. -/
def execute_swap (amount_in reserve_a reserve_b min_output : Nat)
    (is_a_to_b : Bool) (fee_rate : Nat) : Nat × Nat × Bool :=
  let fee := ((amount_in * fee_rate) % U64) / 10000
  let amount_in_after_fee := (amount_in + U64 - fee) % U64
  let rp := if is_a_to_b then (reserve_a, reserve_b) else (reserve_b, reserve_a)
  let numerator := (amount_in_after_fee * rp.2) % U64
  let denominator := (rp.1 + amount_in_after_fee) % U64
  let amount_out := numerator / denominator
  (amount_in, amount_out, decide (min_output ≤ amount_out))

/-- Embedding of `init_balance`: the circuit reveals the constant `true`. -/
def init_balance (nonce : Nat) (owner : Nat) : Bool := true

/-- Embedding of `deposit`: the simplified circuit returns
`new_balance = amount` (it receives no prior balance) and
`success = amount > 0`. -/
def deposit (amount : Nat) (owner : Nat) (nonce : Nat) : Nat × Bool :=
  (amount, decide (0 < amount))

/-- Embedding of `add_order`: `valid = price > 0 && size > 0`; invalid
input returns `(0, false)`; valid input returns the fresh random `u64`
drawn from `ArcisRNG` (passed here explicitly as `rng`) and `true`. -/
def add_order (price size : Nat) (is_buy : Bool) (owner : Nat)
    (rng : Nat) : Nat × Bool :=
  let valid := decide (0 < price) && decide (0 < size)
  if valid then (rng, true) else (0, false)

/-- Embedding of `match_orders`: the stub reveals `(0, 0)`. -/
def match_orders : Nat × Nat := (0, 0)

/-- Embedding of `cancel_order`: the simplified circuit returns
`(order_id, order_id > 0)`; the `owner` argument is unused. -/
def cancel_order (order_id : Nat) (owner : Nat) : Nat × Bool :=
  (order_id, decide (0 < order_id))

end Circuits

/-- A signed computation output; `verified` is the outcome of
`verify_output` against the cluster and computation accounts. -/
structure SignedComputationOutputs (T : Type) where
  verified : Except Unit T

/-- The verification step a callback performs on its output argument. -/
def verify_output {T : Type} (o : SignedComputationOutputs T) : Except Unit T :=
  o.verified

namespace PrivateSwap

/-- The `SwapPool` account of `programs/private_swap/src/lib.rs`;
`Pubkey` values are modelled as `Nat`. -/
structure SwapPool where
  authority : Nat
  token_mint_a : Nat
  token_mint_b : Nat
  reserve_a : Nat
  reserve_b : Nat
  fee_rate : Nat
  bump : Nat
  total_swaps : Nat
deriving DecidableEq

/-- The typed result of the `execute_swap` circuit as decoded by the
swap callback. -/
structure SwapOutput where
  amount_in : Nat
  amount_out : Nat
  success : Bool
deriving DecidableEq

/-- Events emitted by the private_swap program. -/
inductive SwapEvent where
  | liquidityAdded (pool amount_a amount_b : Nat)
  | swapExecuted (amount_in amount_out : Nat)
deriving DecidableEq

/-- The private_swap program's `ErrorCode` enum. -/
inductive SwapError where
  | abortedComputation
  | clusterNotSet
  | swapFailed
  | insufficientLiquidity
deriving DecidableEq

/-- `u64::checked_add`: `none` models the overflow case, where the
source's `unwrap` panics and the whole transaction aborts. -/
def checked_add (a b : Nat) : Option Nat :=
  if a + b < U64 then some (a + b) else none

/-- Embedding of the reserve-update and event-emission part of
`add_liquidity` (the SPL token transfers are external collaborators);
`poolKey` is the pool account's address used in the event. -/
def add_liquidity (poolKey : Nat) (pool : SwapPool)
    (amount_a amount_b : Nat) : Option (SwapPool × List SwapEvent) :=
  match checked_add pool.reserve_a amount_a, checked_add pool.reserve_b amount_b with
  | some ra, some rb =>
      some ({ pool with reserve_a := ra, reserve_b := rb },
            [SwapEvent.liquidityAdded poolKey amount_a amount_b])
  | _, _ => none

/-- Embedding of `execute_swap_callback`: verification failure aborts;
`success = false` fails with `SwapFailed`; otherwise the `SwapExecuted`
event is emitted.  The callback context holds no pool account, so the
threaded pool state is returned unchanged on the success path. -/
def execute_swap_callback (pool : SwapPool)
    (output : SignedComputationOutputs SwapOutput) :
    Except SwapError (SwapPool × List SwapEvent) :=
  match verify_output output with
  | Except.error _ => Except.error SwapError.abortedComputation
  | Except.ok r =>
      if r.success = false then Except.error SwapError.swapFailed
      else Except.ok (pool, [SwapEvent.swapExecuted r.amount_in r.amount_out])

end PrivateSwap

namespace DarkPool

/-- The `OrderBook` account of `programs/dark_pool/src/lib.rs`. -/
structure OrderBook where
  authority : Nat
  base_mint : Nat
  quote_mint : Nat
  fee_rate : Nat
  bump : Nat
  total_orders : Nat
  total_matches : Nat
  active_orders : Nat
deriving DecidableEq

/-- The typed result of the `add_order` circuit. -/
structure AddOrderOutput where
  order_id : Nat
  success : Bool
deriving DecidableEq

/-- The typed result of the `cancel_order` circuit. -/
structure CancelOutput where
  order_id : Nat
  success : Bool
deriving DecidableEq

/-- Events emitted by the dark_pool program. -/
inductive PoolEvent where
  | orderAdded (order_id : Nat)
  | ordersMatched (matches_count total_volume : Nat)
  | orderCancelled (order_id : Nat)
deriving DecidableEq

/-- The dark_pool program's `ErrorCode` enum. -/
inductive PoolError where
  | abortedComputation
  | clusterNotSet
  | orderFailed
  | cancelFailed
  | unauthorized
deriving DecidableEq

/-- Embedding of `add_order_callback`: verification failure aborts;
`success = false` fails with `OrderFailed`; otherwise `OrderAdded` is
emitted.  The callback context holds no order-book account, so the
threaded book is returned unchanged (no counter is incremented). -/
def add_order_callback (book : OrderBook)
    (output : SignedComputationOutputs AddOrderOutput) :
    Except PoolError (OrderBook × List PoolEvent) :=
  match verify_output output with
  | Except.error _ => Except.error PoolError.abortedComputation
  | Except.ok r =>
      if r.success = false then Except.error PoolError.orderFailed
      else Except.ok (book, [PoolEvent.orderAdded r.order_id])

/-- Embedding of `cancel_order_callback`: verification failure aborts;
`success = false` fails with `CancelFailed`; otherwise `OrderCancelled`
is emitted; the threaded book is returned unchanged. -/
def cancel_order_callback (book : OrderBook)
    (output : SignedComputationOutputs CancelOutput) :
    Except PoolError (OrderBook × List PoolEvent) :=
  match verify_output output with
  | Except.error _ => Except.error PoolError.abortedComputation
  | Except.ok r =>
      if r.success = false then Except.error PoolError.cancelFailed
      else Except.ok (book, [PoolEvent.orderCancelled r.order_id])

end DarkPool

namespace PrivatePay

/-- The `PrivateBalanceAccount` of `programs/private_pay/src/lib.rs`;
the `[u8; 64]` ciphertext blob is modelled as a list of bytes. -/
structure PrivateBalanceAccount where
  owner : Nat
  bump : Nat
  balance_state : List Nat
  nonce : Nat
deriving DecidableEq

/-- The typed result of the `init_balance` circuit. -/
structure InitBalanceOutput where
  success : Bool
deriving DecidableEq

/-- The typed result of the `deposit` circuit. -/
structure DepositOutput where
  new_balance : Nat
  success : Bool
deriving DecidableEq

/-- Events emitted by the private_pay program. -/
inductive PayEvent where
  | balanceCreated (owner : Nat)
  | fundsDeposited (owner new_balance : Nat)
deriving DecidableEq

/-- The private_pay program's `ErrorCode` enum. -/
inductive PayError where
  | abortedComputation
  | clusterNotSet
  | invalidAuthority
  | insufficientBalance
  | initializationFailed
  | depositFailed
deriving DecidableEq

/-- Embedding of `create_balance_callback`: verification failure aborts;
`success = false` fails with `InitializationFailed`; otherwise
`BalanceCreated` is emitted; the account is returned unchanged. -/
def create_balance_callback (acct : PrivateBalanceAccount)
    (output : SignedComputationOutputs InitBalanceOutput) :
    Except PayError (PrivateBalanceAccount × List PayEvent) :=
  match verify_output output with
  | Except.error _ => Except.error PayError.abortedComputation
  | Except.ok r =>
      if r.success = false then Except.error PayError.initializationFailed
      else Except.ok (acct, [PayEvent.balanceCreated acct.owner])

/-- Embedding of `deposit_callback`: verification failure aborts;
`success = false` fails with `DepositFailed`; otherwise `FundsDeposited`
is emitted with the revealed balance.  The handler never writes
`balance_state`, so the account is returned unchanged on every path. -/
def deposit_callback (acct : PrivateBalanceAccount)
    (output : SignedComputationOutputs DepositOutput) :
    Except PayError (PrivateBalanceAccount × List PayEvent) :=
  match verify_output output with
  | Except.error _ => Except.error PayError.abortedComputation
  | Except.ok r =>
      if r.success = false then Except.error PayError.depositFailed
      else Except.ok (acct, [PayEvent.fundsDeposited acct.owner r.new_balance])

end PrivatePay

/-! ## Helper lemmas -/

/-- Under no-overflow hypotheses, `execute_swap` in the a→b direction
computes the plain (mod-free) fee and constant-product quote. -/
theorem execute_swap_eval (amount_in reserve_in reserve_out min_output fee_rate : Nat)
    (ha : amount_in < U64)
    (h1 : amount_in * fee_rate < U64)
    (h2 : amount_in * fee_rate / 10000 ≤ amount_in)
    (h3 : (amount_in - amount_in * fee_rate / 10000) * reserve_out < U64)
    (h4 : reserve_in + (amount_in - amount_in * fee_rate / 10000) < U64) :
    Circuits.execute_swap amount_in reserve_in reserve_out min_output true fee_rate =
      (amount_in,
       (amount_in - amount_in * fee_rate / 10000) * reserve_out /
         (reserve_in + (amount_in - amount_in * fee_rate / 10000)),
       decide (min_output ≤ (amount_in - amount_in * fee_rate / 10000) * reserve_out /
         (reserve_in + (amount_in - amount_in * fee_rate / 10000)))) := by
  unfold Circuits.execute_swap
  have e1 : (amount_in * fee_rate) % U64 = amount_in * fee_rate := Nat.mod_eq_of_lt h1
  have e2 : (amount_in + U64 - amount_in * fee_rate / 10000) % U64
      = amount_in - amount_in * fee_rate / 10000 := by
    have hs : amount_in + U64 - amount_in * fee_rate / 10000
        = (amount_in - amount_in * fee_rate / 10000) + U64 := by omega
    rw [hs, Nat.add_mod_right]
    exact Nat.mod_eq_of_lt (by omega)
  simp only [e1, e2, if_true]
  rw [Nat.mod_eq_of_lt h3, Nat.mod_eq_of_lt h4]

/-- The circuit's direction flag only swaps the roles of the two
reserves. -/
theorem execute_swap_direction (a ra rb m f : Nat) :
    Circuits.execute_swap a ra rb m false f = Circuits.execute_swap a rb ra m true f := rfl

/-- A basis-point fee never exceeds the amount it is taken from. -/
theorem fee_le_self (x g : Nat) (hg : g ≤ 10000) : x * g / 10000 ≤ x := by
  have h : x * g ≤ x * 10000 := Nat.mul_le_mul (le_refl x) hg
  calc x * g / 10000 ≤ x * 10000 / 10000 := Nat.div_le_div_right h
    _ = x := Nat.mul_div_cancel x (by norm_num)

/-- The after-fee amount `x - x * g / 10000` is monotone in `x` when
`g ≤ 10000`. -/
theorem after_fee_mono (a b g : Nat) (hab : a ≤ b) (hg : g ≤ 10000) :
    a - a * g / 10000 ≤ b - b * g / 10000 := by
  have hbg : b * g = a * g + (b - a) * g := by
    rw [← Nat.add_mul]
    congr 1
    omega
  have h1 : b * g ≤ a * g + (b - a) * 10000 := by
    rw [hbg]
    exact Nat.add_le_add_left (Nat.mul_le_mul (le_refl _) hg) _
  have hd : b * g / 10000 ≤ a * g / 10000 + (b - a) := by
    calc b * g / 10000 ≤ (a * g + (b - a) * 10000) / 10000 := Nat.div_le_div_right h1
      _ = a * g / 10000 + (b - a) := by
          rw [Nat.add_mul_div_right _ _ (by norm_num : (0:Nat) < 10000)]
  have hfa : a * g / 10000 ≤ a := fee_le_self a g hg
  omega

/-- The constant-product quote `a * R / (r + a)` is monotone in the
after-fee input amount `a`. -/
theorem quote_mono (R r a b : Nat) (hpos : 0 < r + a) (hab : a ≤ b) :
    a * R / (r + a) ≤ b * R / (r + b) := by
  have hpos2 : 0 < r + b := by omega
  rw [Nat.le_div_iff_mul_le hpos2]
  have h1 : a * R / (r + a) * (r + a) ≤ a * R := Nat.div_mul_le_self _ _
  have key : a * (R * r) ≤ b * (R * r) := Nat.mul_le_mul hab (le_refl _)
  have h2 : a * R * (r + b) ≤ b * R * (r + a) := by
    calc a * R * (r + b) = a * (R * r) + a * R * b := by ring
      _ ≤ b * (R * r) + a * R * b := Nat.add_le_add_right key _
      _ = b * R * (r + a) := by ring
  have h3 : a * R / (r + a) * (r + b) * (r + a) ≤ b * R * (r + a) := by
    calc a * R / (r + a) * (r + b) * (r + a)
        = a * R / (r + a) * (r + a) * (r + b) := by ring
      _ ≤ a * R * (r + b) := Nat.mul_le_mul_right _ h1
      _ ≤ b * R * (r + a) := h2
  exact Nat.le_of_mul_le_mul_right h3 hpos

/-! ## Claim theorems -/

/-- Claim C1: under the claimed no-overflow and positive-denominator
hypotheses, `execute_swap` returns `(amount_in, amount_out, success)`
with `fee = amount_in * fee_bps / 10000`,
`amount_out = (amount_in - fee) * reserve_out / (reserve_in + (amount_in - fee))`
(truncating division) and `success = (amount_out >= min_output)`; the
direction flag merely swaps the reserve roles. -/
theorem claim_C1_execute_swap_formula
    (amount_in reserve_in reserve_out min_output fee_bps : Nat)
    (ha : amount_in < U64)
    (h1 : amount_in * fee_bps < U64)
    (h2 : amount_in * fee_bps / 10000 ≤ amount_in)
    (h3 : (amount_in - amount_in * fee_bps / 10000) * reserve_out < U64)
    (h4 : reserve_in + (amount_in - amount_in * fee_bps / 10000) < U64)
    (h5 : 0 < reserve_in + (amount_in - amount_in * fee_bps / 10000)) :
    Circuits.execute_swap amount_in reserve_in reserve_out min_output true fee_bps =
      (amount_in,
       (amount_in - amount_in * fee_bps / 10000) * reserve_out /
         (reserve_in + (amount_in - amount_in * fee_bps / 10000)),
       decide (min_output ≤ (amount_in - amount_in * fee_bps / 10000) * reserve_out /
         (reserve_in + (amount_in - amount_in * fee_bps / 10000)))) := by
  exact execute_swap_eval amount_in reserve_in reserve_out min_output fee_bps ha h1 h2 h3 h4

/-- Witness for C1: the spec's end-to-end swap example. -/
theorem claim_C1_witness :
    Circuits.execute_swap 1000 1000000 1000000 900 true 30 = (1000, 996, true) := by
  have h := claim_C1_execute_swap_formula 1000 1000000 1000000 900 30
    (by decide) (by decide) (by decide) (by decide) (by decide) (by decide)
  rw [h]; decide

/-- Claim C2 (corrected): `execute_swap` is deterministic, and its
`amount_out` is monotonically non-decreasing in `amount_in` and
non-increasing in `fee_bps` — strict monotonicity fails because of
truncating integer division. -/
theorem claim_C2_amended (a b rin rout m f g : Nat)
    (hab : a ≤ b) (hfg : f ≤ g) (hg10k : g ≤ 10000)
    (hb : b < U64) (hmul : b * g < U64) (hmr : b * rout < U64) (hden : rin + b < U64)
    (hpos : 0 < rin + (a - a * g / 10000)) :
    Circuits.execute_swap a rin rout m true f = Circuits.execute_swap a rin rout m true f
    ∧ (Circuits.execute_swap a rin rout m true f).2.1
        ≤ (Circuits.execute_swap b rin rout m true f).2.1
    ∧ (Circuits.execute_swap a rin rout m true g).2.1
        ≤ (Circuits.execute_swap a rin rout m true f).2.1 := by
  have hf10k : f ≤ 10000 := le_trans hfg hg10k
  have hfee_af : a * f / 10000 ≤ a := fee_le_self a f hf10k
  have hfee_bf : b * f / 10000 ≤ b := fee_le_self b f hf10k
  have hfee_ag : a * g / 10000 ≤ a := fee_le_self a g hg10k
  -- larger fee rate means smaller after-fee amount
  have hanti : a - a * g / 10000 ≤ a - a * f / 10000 := by
    have : a * f / 10000 ≤ a * g / 10000 :=
      Nat.div_le_div_right (Nat.mul_le_mul (le_refl a) hfg)
    omega
  have hmono : a - a * f / 10000 ≤ b - b * f / 10000 := after_fee_mono a b f hab hf10k
  have eval_af := execute_swap_eval a rin rout m f (lt_of_le_of_lt hab hb)
    (lt_of_le_of_lt (Nat.mul_le_mul hab hfg) hmul) hfee_af
    (lt_of_le_of_lt (Nat.mul_le_mul (le_trans (Nat.sub_le _ _) hab) (le_refl rout)) hmr)
    (lt_of_le_of_lt (Nat.add_le_add_left (le_trans (Nat.sub_le _ _) hab) rin) hden)
  have eval_bf := execute_swap_eval b rin rout m f hb
    (lt_of_le_of_lt (Nat.mul_le_mul (le_refl b) hfg) hmul) hfee_bf
    (lt_of_le_of_lt (Nat.mul_le_mul (Nat.sub_le _ _) (le_refl rout)) hmr)
    (lt_of_le_of_lt (Nat.add_le_add_left (Nat.sub_le _ _) rin) hden)
  have eval_ag := execute_swap_eval a rin rout m g (lt_of_le_of_lt hab hb)
    (lt_of_le_of_lt (Nat.mul_le_mul hab (le_refl g)) hmul) hfee_ag
    (lt_of_le_of_lt (Nat.mul_le_mul (le_trans (Nat.sub_le _ _) hab) (le_refl rout)) hmr)
    (lt_of_le_of_lt (Nat.add_le_add_left (le_trans (Nat.sub_le _ _) hab) rin) hden)
  refine ⟨rfl, ?_, ?_⟩
  · rw [eval_af, eval_bf]
    exact quote_mono rout rin _ _ (lt_of_lt_of_le hpos (Nat.add_le_add_left hanti rin)) hmono
  · rw [eval_af, eval_ag]
    exact quote_mono rout rin _ _ hpos hanti

/-- Witness for C2's amended theorem at concrete inputs. -/
theorem claim_C2_witness :
    (Circuits.execute_swap 1000 1000000 1000000 0 true 30).2.1
      ≤ (Circuits.execute_swap 2000 1000000 1000000 0 true 30).2.1
    ∧ (Circuits.execute_swap 1000 1000000 1000000 0 true 50).2.1
      ≤ (Circuits.execute_swap 1000 1000000 1000000 0 true 30).2.1 := by
  have h := claim_C2_amended 1000 2000 1000000 1000000 0 30 50
    (by decide) (by decide) (by decide) (by decide) (by decide) (by decide)
    (by decide) (by decide)
  exact ⟨h.2.1, h.2.2⟩

/-- Counterexample to C2 as stated: with reserves `(1, 1)`, no fee and
the claim's own positivity precondition satisfied, raising `amount_in`
from 1 to 2 leaves `amount_out` at 0, so the increase is not strict. -/
theorem claim_C2_counterexample :
    1 < 2
    ∧ 0 < 1 + 1 * (10000 - 0) / 10000
    ∧ 0 < 1 + 2 * (10000 - 0) / 10000
    ∧ ¬ (Circuits.execute_swap 1 1 1 0 true 0).2.1
        < (Circuits.execute_swap 2 1 1 0 true 0).2.1 := by decide

/-- Claim C3: the swap settlement callback returns the
aborted-computation error when verification fails, the `SwapFailed`
error when the verified result has `success = false`, and otherwise
emits exactly one `SwapExecuted` event with the verified amounts; on
both failure paths no event is emitted and the pool state is unchanged
(the error return carries no state), and every successful return leaves
the pool unchanged and carries exactly the one event. -/
theorem claim_C3_swap_callback (pool : PrivateSwap.SwapPool)
    (o : SignedComputationOutputs PrivateSwap.SwapOutput) :
    (∀ e, o.verified = Except.error e →
        PrivateSwap.execute_swap_callback pool o
          = Except.error PrivateSwap.SwapError.abortedComputation)
    ∧ (∀ r, o.verified = Except.ok r → r.success = false →
        PrivateSwap.execute_swap_callback pool o
          = Except.error PrivateSwap.SwapError.swapFailed)
    ∧ (∀ r, o.verified = Except.ok r → r.success = true →
        PrivateSwap.execute_swap_callback pool o
          = Except.ok (pool, [PrivateSwap.SwapEvent.swapExecuted r.amount_in r.amount_out]))
    ∧ (∀ st evs, PrivateSwap.execute_swap_callback pool o = Except.ok (st, evs) →
        st = pool ∧ ∃ r, o.verified = Except.ok r ∧ r.success = true
          ∧ evs = [PrivateSwap.SwapEvent.swapExecuted r.amount_in r.amount_out]) := by
  obtain ⟨v⟩ := o
  refine ⟨?_, ?_, ?_, ?_⟩
  · intro e he
    simp [PrivateSwap.execute_swap_callback, verify_output] at he ⊢
    rw [he]
  · intro r hr hs
    simp only [verify_output] at hr
    simp [PrivateSwap.execute_swap_callback, verify_output, hr, hs]
  · intro r hr hs
    simp only [verify_output] at hr
    simp [PrivateSwap.execute_swap_callback, verify_output, hr, hs]
  · intro st evs h
    cases v with
    | error e => simp [PrivateSwap.execute_swap_callback, verify_output] at h
    | ok r =>
        by_cases hs : r.success = false
        · simp [PrivateSwap.execute_swap_callback, verify_output, hs] at h
        · simp [PrivateSwap.execute_swap_callback, verify_output, hs] at h
          exact ⟨h.1.symm, r, rfl, by simpa using hs, h.2.symm⟩

/-- Witness for C3: a verified successful swap result settles with the
single `SwapExecuted` event and an unchanged pool. -/
theorem claim_C3_witness :
    PrivateSwap.execute_swap_callback ⟨1, 2, 3, 1000000, 1000000, 30, 255, 0⟩
        ⟨Except.ok ⟨1000, 996, true⟩⟩
      = Except.ok (⟨1, 2, 3, 1000000, 1000000, 30, 255, 0⟩,
          [PrivateSwap.SwapEvent.swapExecuted 1000 996]) := by
  exact (claim_C3_swap_callback _ _).2.2.1 ⟨1000, 996, true⟩ rfl rfl

/-- Counterexample to C4 as stated: with valid input `price = size = 1`,
a randomness draw of `0` makes `add_order` return id `0` with
`success = true`, so a valid call does not always yield a nonzero id. -/
theorem claim_C4_counterexample :
    Circuits.add_order 1 1 true 0 0 = (0, true)
    ∧ 0 < (1 : Nat) := by decide

/-- Claim C4 (corrected): `add_order` with `price = 0` or `size = 0`
returns `(0, false)` without allocating an id; with valid input it
returns `(rng, true)` where `rng` is the circuit's fresh random `u64`
draw — in particular the success flag is always `true` on valid input,
two valid calls return the same id exactly when their random draws
coincide, and the id is nonzero only when the draw is. -/
theorem claim_C4_amended (price size : Nat) (is_buy : Bool) (owner rng rng2 : Nat) :
    ((price = 0 ∨ size = 0) → Circuits.add_order price size is_buy owner rng = (0, false))
    ∧ (0 < price → 0 < size →
        Circuits.add_order price size is_buy owner rng = (rng, true))
    ∧ (0 < price → 0 < size → rng ≠ rng2 →
        (Circuits.add_order price size is_buy owner rng).1
          ≠ (Circuits.add_order price size is_buy owner rng2).1) := by
  refine ⟨?_, ?_, ?_⟩
  · rintro (h | h) <;> simp [Circuits.add_order, h]
  · intro hp hs
    simp [Circuits.add_order, hp, hs]
  · intro hp hs hne
    simp [Circuits.add_order, hp, hs]
    exact hne

/-- Witness for C4's amended theorem: a valid order gets the drawn id. -/
theorem claim_C4_witness :
    Circuits.add_order 2 3 true 7 42 = (42, true) := by
  exact (claim_C4_amended 2 3 true 7 42 0).2.1 (by decide) (by decide)

/-- Counterexample to C5 as stated: the circuit ignores the owner
argument entirely — two distinct callers both get `success = true` for
the same nonzero order id, so at least one succeeds on an order it does
not own, contradicting the claimed ownership check. -/
theorem claim_C5_counterexample :
    Circuits.cancel_order 1 0 = (1, true)
    ∧ Circuits.cancel_order 1 1 = (1, true)
    ∧ (0 : Nat) ≠ 1 := by decide

/-- Claim C5 (corrected): `cancel_order` returns
`(order_id, order_id > 0)` regardless of the owner argument — the
simplified circuit checks neither ownership nor existence; `order_id = 0`
always fails and any nonzero id succeeds. -/
theorem claim_C5_amended (order_id owner owner2 : Nat) :
    Circuits.cancel_order order_id owner = (order_id, decide (0 < order_id))
    ∧ ((Circuits.cancel_order order_id owner).2 = true ↔ 0 < order_id)
    ∧ (Circuits.cancel_order 0 owner).2 = false
    ∧ Circuits.cancel_order order_id owner = Circuits.cancel_order order_id owner2 := by
  refine ⟨rfl, ?_, rfl, rfl⟩
  simp [Circuits.cancel_order]

/-- Witness for C5's amended theorem at a concrete id and owners. -/
theorem claim_C5_witness :
    Circuits.cancel_order 5 3 = (5, decide (0 < 5))
    ∧ (Circuits.cancel_order 0 3).2 = false := by
  have h := claim_C5_amended 5 3 4
  exact ⟨h.1, h.2.2.1⟩

/-- Counterexample to C6 as stated: the deposit circuit receives no
prior balance and reveals `new_balance = amount`; with prior balance 300
and `amount = 500` the claim requires 800 but the circuit reveals 500. -/
theorem claim_C6_counterexample :
    Circuits.deposit 500 0 0 = (500, true)
    ∧ (500 : Nat) ≠ 300 + 500 := by decide

/-- Claim C6 (corrected): `deposit` ignores any prior balance (the
circuit has no balance input) and reveals `(amount, amount > 0)`; the
fresh-zero-balance scenarios hold: `deposit 0` fails and `deposit 500`
reveals balance 500 with success. -/
theorem claim_C6_amended (amount owner nonce : Nat) :
    Circuits.deposit amount owner nonce = (amount, decide (0 < amount))
    ∧ ((Circuits.deposit amount owner nonce).2 = true ↔ 0 < amount)
    ∧ (Circuits.deposit 0 owner nonce).2 = false
    ∧ Circuits.deposit 500 owner nonce = (500, true) := by
  refine ⟨rfl, ?_, rfl, rfl⟩
  simp [Circuits.deposit]

/-- Witness for C6's amended theorem at concrete inputs. -/
theorem claim_C6_witness :
    Circuits.deposit 500 1 2 = (500, true)
    ∧ (Circuits.deposit 0 1 2).2 = false := by
  have h := claim_C6_amended 0 1 2
  exact ⟨h.2.2.2, h.2.2.1⟩

/-- Counterexample to C7 as stated: on a verified successful deposit the
callback returns the account bit-identical to its pre-call value — the
opaque `balance_state` blob is never replaced (the verified
`DepositOutput` carries no ciphertext at all), only the event is
emitted. -/
theorem claim_C7_counterexample :
    PrivatePay.deposit_callback ⟨7, 255, List.replicate 64 0, 9⟩
        ⟨Except.ok ⟨500, true⟩⟩
      = Except.ok (⟨7, 255, List.replicate 64 0, 9⟩,
          [PrivatePay.PayEvent.fundsDeposited 7 500]) := rfl

/-- Claim C7 (corrected): the deposit callback fails with the
aborted-computation error when verification fails and with
`DepositFailed` when the verified result has `success = false`, each
with no state change; on `success = true` it emits
`FundsDeposited{owner, new_balance}` with the revealed balance but
leaves the account — including its `balance_state` blob — unchanged. -/
theorem claim_C7_amended (acct : PrivatePay.PrivateBalanceAccount)
    (o : SignedComputationOutputs PrivatePay.DepositOutput) :
    (∀ e, o.verified = Except.error e →
        PrivatePay.deposit_callback acct o
          = Except.error PrivatePay.PayError.abortedComputation)
    ∧ (∀ r, o.verified = Except.ok r → r.success = false →
        PrivatePay.deposit_callback acct o
          = Except.error PrivatePay.PayError.depositFailed)
    ∧ (∀ r, o.verified = Except.ok r → r.success = true →
        PrivatePay.deposit_callback acct o
          = Except.ok (acct, [PrivatePay.PayEvent.fundsDeposited acct.owner r.new_balance]))
    ∧ (∀ st evs, PrivatePay.deposit_callback acct o = Except.ok (st, evs) →
        st.balance_state = acct.balance_state ∧ st = acct) := by
  obtain ⟨v⟩ := o
  refine ⟨?_, ?_, ?_, ?_⟩
  · intro e he
    simp only [verify_output] at he
    simp [PrivatePay.deposit_callback, verify_output, he]
  · intro r hr hs
    simp only [verify_output] at hr
    simp [PrivatePay.deposit_callback, verify_output, hr, hs]
  · intro r hr hs
    simp only [verify_output] at hr
    simp [PrivatePay.deposit_callback, verify_output, hr, hs]
  · intro st evs h
    cases v with
    | error e => simp [PrivatePay.deposit_callback, verify_output] at h
    | ok r =>
        by_cases hs : r.success = false
        · simp [PrivatePay.deposit_callback, verify_output, hs] at h
        · simp [PrivatePay.deposit_callback, verify_output, hs] at h
          exact ⟨by rw [← h.1], h.1.symm⟩

/-- Witness for C7's amended theorem: a verified successful deposit
emits the event and leaves the account unchanged. -/
theorem claim_C7_witness :
    PrivatePay.deposit_callback ⟨7, 255, List.replicate 64 0, 9⟩
        ⟨Except.ok ⟨500, true⟩⟩
      = Except.ok (⟨7, 255, List.replicate 64 0, 9⟩,
          [PrivatePay.PayEvent.fundsDeposited 7 500])
    ∧ PrivatePay.deposit_callback ⟨7, 255, List.replicate 64 0, 9⟩
        ⟨Except.ok ⟨500, false⟩⟩
      = Except.error PrivatePay.PayError.depositFailed := by
  have h := claim_C7_amended ⟨7, 255, List.replicate 64 0, 9⟩ ⟨Except.ok ⟨500, true⟩⟩
  have h2 := claim_C7_amended ⟨7, 255, List.replicate 64 0, 9⟩ ⟨Except.ok ⟨500, false⟩⟩
  exact ⟨h.2.2.1 ⟨500, true⟩ rfl rfl, h2.2.1 ⟨500, false⟩ rfl rfl⟩

/-- Counterexample to C8 as stated: on a verified successful add-order
result the callback emits the event but returns the order book
bit-identical to its pre-call value — `total_orders` and
`active_orders` stay at 0 instead of being incremented to 1 (the
callback context holds no order-book account). -/
theorem claim_C8_counterexample :
    DarkPool.add_order_callback ⟨1, 2, 3, 10, 255, 0, 0, 0⟩ ⟨Except.ok ⟨42, true⟩⟩
      = Except.ok (⟨1, 2, 3, 10, 255, 0, 0, 0⟩, [DarkPool.PoolEvent.orderAdded 42])
    ∧ (0 : Nat) ≠ 0 + 1 := ⟨rfl, by decide⟩

/-- Claim C8 (corrected): the add-order callback fails with
`OrderFailed` on a verified `success = false` result and with the
aborted-computation error on a verification failure; on `success = true`
it emits `OrderAdded` with the new order id but leaves the order book —
its total-order and active-order counters included — unchanged. -/
theorem claim_C8_amended (book : DarkPool.OrderBook)
    (o : SignedComputationOutputs DarkPool.AddOrderOutput) :
    (∀ e, o.verified = Except.error e →
        DarkPool.add_order_callback book o
          = Except.error DarkPool.PoolError.abortedComputation)
    ∧ (∀ r, o.verified = Except.ok r → r.success = false →
        DarkPool.add_order_callback book o
          = Except.error DarkPool.PoolError.orderFailed)
    ∧ (∀ r, o.verified = Except.ok r → r.success = true →
        DarkPool.add_order_callback book o
          = Except.ok (book, [DarkPool.PoolEvent.orderAdded r.order_id]))
    ∧ (∀ st evs, DarkPool.add_order_callback book o = Except.ok (st, evs) →
        st.total_orders = book.total_orders ∧ st.active_orders = book.active_orders
          ∧ st = book) := by
  obtain ⟨v⟩ := o
  refine ⟨?_, ?_, ?_, ?_⟩
  · intro e he
    simp only [verify_output] at he
    simp [DarkPool.add_order_callback, verify_output, he]
  · intro r hr hs
    simp only [verify_output] at hr
    simp [DarkPool.add_order_callback, verify_output, hr, hs]
  · intro r hr hs
    simp only [verify_output] at hr
    simp [DarkPool.add_order_callback, verify_output, hr, hs]
  · intro st evs h
    cases v with
    | error e => simp [DarkPool.add_order_callback, verify_output] at h
    | ok r =>
        by_cases hs : r.success = false
        · simp [DarkPool.add_order_callback, verify_output, hs] at h
        · simp [DarkPool.add_order_callback, verify_output, hs] at h
          exact ⟨by rw [← h.1], by rw [← h.1], h.1.symm⟩

/-- Witness for C8's amended theorem at a concrete book and output. -/
theorem claim_C8_witness :
    DarkPool.add_order_callback ⟨1, 2, 3, 10, 255, 5, 6, 2⟩ ⟨Except.ok ⟨42, true⟩⟩
      = Except.ok (⟨1, 2, 3, 10, 255, 5, 6, 2⟩, [DarkPool.PoolEvent.orderAdded 42])
    ∧ DarkPool.add_order_callback ⟨1, 2, 3, 10, 255, 5, 6, 2⟩ ⟨Except.ok ⟨42, false⟩⟩
      = Except.error DarkPool.PoolError.orderFailed := by
  have h := claim_C8_amended ⟨1, 2, 3, 10, 255, 5, 6, 2⟩ ⟨Except.ok ⟨42, true⟩⟩
  have h2 := claim_C8_amended ⟨1, 2, 3, 10, 255, 5, 6, 2⟩ ⟨Except.ok ⟨42, false⟩⟩
  exact ⟨h.2.2.1 ⟨42, true⟩ rfl rfl, h2.2.1 ⟨42, false⟩ rfl rfl⟩

/-- Claim C9: the `init_balance` circuit reveals `true` for every
`(nonce, owner)` input, so settling the circuit's own verified output in
`create_balance_callback` always emits `BalanceCreated` and never takes
the `InitializationFailed` branch. -/
theorem claim_C9_init_balance (nonce owner : Nat)
    (acct : PrivatePay.PrivateBalanceAccount) :
    Circuits.init_balance nonce owner = true
    ∧ PrivatePay.create_balance_callback acct
        ⟨Except.ok ⟨Circuits.init_balance nonce owner⟩⟩
        = Except.ok (acct, [PrivatePay.PayEvent.balanceCreated acct.owner])
    ∧ PrivatePay.create_balance_callback acct
        ⟨Except.ok ⟨Circuits.init_balance nonce owner⟩⟩
        ≠ Except.error PrivatePay.PayError.initializationFailed := by
  refine ⟨rfl, rfl, ?_⟩
  simp [PrivatePay.create_balance_callback, verify_output, Circuits.init_balance]

/-- Witness for C9 at concrete inputs. -/
theorem claim_C9_witness :
    PrivatePay.create_balance_callback ⟨7, 255, List.replicate 64 0, 9⟩
        ⟨Except.ok ⟨Circuits.init_balance 3 7⟩⟩
      = Except.ok (⟨7, 255, List.replicate 64 0, 9⟩,
          [PrivatePay.PayEvent.balanceCreated 7]) := by
  exact (claim_C9_init_balance 3 7 ⟨7, 255, List.replicate 64 0, 9⟩).2.1

/-- Claim C10: when neither reserve addition overflows `u64`,
`add_liquidity` adds the amounts to the two reserves, emits exactly one
`LiquidityAdded` event, and leaves every other `SwapPool` field
unchanged; when either addition overflows, the `checked_add` unwrap
panics (modelled as `none`) instead of wrapping. -/
theorem claim_C10_add_liquidity (poolKey : Nat) (pool : PrivateSwap.SwapPool)
    (amount_a amount_b : Nat) :
    (pool.reserve_a + amount_a < U64 → pool.reserve_b + amount_b < U64 →
      PrivateSwap.add_liquidity poolKey pool amount_a amount_b
        = some ({ pool with reserve_a := pool.reserve_a + amount_a,
                            reserve_b := pool.reserve_b + amount_b },
                [PrivateSwap.SwapEvent.liquidityAdded poolKey amount_a amount_b]))
    ∧ (U64 ≤ pool.reserve_a + amount_a ∨ U64 ≤ pool.reserve_b + amount_b →
        PrivateSwap.add_liquidity poolKey pool amount_a amount_b = none) := by
  constructor
  · intro h1 h2
    simp [PrivateSwap.add_liquidity, PrivateSwap.checked_add, h1, h2]
  · rintro (h | h)
    · have hn : ¬ pool.reserve_a + amount_a < U64 := by omega
      simp [PrivateSwap.add_liquidity, PrivateSwap.checked_add, hn]
    · have hn : ¬ pool.reserve_b + amount_b < U64 := by omega
      cases hca : PrivateSwap.checked_add pool.reserve_a amount_a <;>
        simp [PrivateSwap.add_liquidity, PrivateSwap.checked_add, hca, hn]

/-- Witness for C10: a concrete liquidity addition and a concrete
overflow. -/
theorem claim_C10_witness :
    PrivateSwap.add_liquidity 5 ⟨1, 2, 3, 100, 200, 30, 255, 7⟩ 10 20
      = some (⟨1, 2, 3, 110, 220, 30, 255, 7⟩,
              [PrivateSwap.SwapEvent.liquidityAdded 5 10 20])
    ∧ PrivateSwap.add_liquidity 5 ⟨1, 2, 3, U64 - 1, 200, 30, 255, 7⟩ 10 20 = none := by
  have h := (claim_C10_add_liquidity 5 ⟨1, 2, 3, 100, 200, 30, 255, 7⟩ 10 20).1
    (by decide) (by decide)
  have h2 := (claim_C10_add_liquidity 5 ⟨1, 2, 3, U64 - 1, 200, 30, 255, 7⟩ 10 20).2
    (Or.inl (by simp [U64]))
  exact ⟨h, h2⟩

end PrivateDefi
